import Mathlib

/-!
# Verification of the touchscreen kiosk daemon (`detecttouch.py`)

This file gives a shallow embedding of the gesture-detection and
process-supervision logic of `detecttouch.py` and proves (or refutes)
the claims of the specification about it.

Conventions of the embedding:
* Time is modelled by `ℚ` (seconds since the `start_time` of the detection run).
* The shared mutable state of the worker thread and the timeout thread
  (`tap_count`, `timeout_triggered`, `touch_detection_active`) is made
  explicit in `DetState`.  The dispatch decisions the code takes
  (launching the Network Settings tool, starting a
  `monitor_and_restart_chromium` thread) are recorded in a `log`,
  together with the time of the dispatch.
* A run of the detection logic is an interleaving of atomic actions
  (`TAct`) taken by the two threads; the handling of one input
  event by the worker is split into the point where the event is read off the device
  (loop head of `touch_detection_worker`, including the flag check and
  the `elapsed` computation) and the point where the branch on that
  event is executed, because the two threads of the source interleave
  between those two statements.
* `monitor_and_restart_chromium` is deterministic given, per loop
  iteration, the value of `touch_detection_active` and the result of
  its launch attempt; it is embedded as a function from that input
  sequence to the sequence of actions it performs.
-/

/-- Times are rationals, in seconds since `start_time`. -/
abbrev Time := ℚ

/-- `target_taps = 10` (line 14 of the source). -/
def target_taps : Nat := 10

/-- `time_window = 10` seconds (line 15 of the source). -/
def time_window : Time := 10

/-- An input event as delivered by evdev: type, code, value. -/
structure TEvent where
  etype : Nat
  code : Nat
  value : Nat
deriving DecidableEq, Repr

/-- `ecodes.EV_KEY`. -/
def EV_KEY : Nat := 1

/-- `ecodes.BTN_TOUCH`. -/
def BTN_TOUCH : Nat := 330

/-- The filter of line 277: `event.type == ecodes.EV_KEY and
event.code == ecodes.BTN_TOUCH and event.value == 1`. -/
def isTouchDown (e : TEvent) : Bool :=
  e.etype == EV_KEY && e.code == BTN_TOUCH && e.value == 1

/-- A touch-down event (used to build concrete runs). -/
def touchDownEvent : TEvent := ⟨EV_KEY, BTN_TOUCH, 1⟩

/-- The dispatch branches the detection run can execute, i.e. the
`GestureOutcome` of the spec as realised by the source:
* `confirmed c el netOk` — lines 284-306: the success branch; `c` is the
  tap count after the increment, `el` the elapsed value of the final
  event, `netOk` whether `launch_application("Network Settings", ...)`
  returned a process (if not, a chromium-monitor thread is started).
* `windowExceeded c el` — lines 307-319: an event arrived with
  `elapsed > time_window`; a chromium-monitor thread is started.
* `timerTimeout c` — lines 254-264: the `timeout_handler` thread fired;
  a chromium-monitor thread is started.
* `sourceError c` — lines 323-331: `read_loop` raised; a
  chromium-monitor thread is started. -/
inductive RunEvt where
  | confirmed (tapCount : Nat) (elapsed : Time) (networkOk : Bool)
  | windowExceeded (tapCount : Nat) (elapsed : Time)
  | timerTimeout (tapCount : Nat)
  | sourceError (tapCount : Nat)
deriving DecidableEq, Repr

/-- The shared state of the detection run.  `tapCount`,
`timeoutTriggered` and `active` are the globals `tap_count`,
`timeout_triggered` and `touch_detection_active`; `workerDone` records
that the event loop of the worker has exited (break or return); `timerDone`
that the timeout handler has run; `pending` holds the `elapsed` value of
a touch-down event that has been read (and its `elapsed` computed) but
whose branch has not yet been executed; `log` records the dispatch
branches executed so far, with their times. -/
structure DetState where
  tapCount : Nat
  timeoutTriggered : Bool
  active : Bool
  workerDone : Bool
  timerDone : Bool
  pending : Option Time
  log : List (Time × RunEvt)
deriving DecidableEq, Repr

/-- State at the start of a detection run (lines 246-248). -/
def initState : DetState :=
  { tapCount := 0, timeoutTriggered := false, active := true,
    workerDone := false, timerDone := false, pending := none, log := [] }

/-- The atomic actions of the two threads of a detection run:
* `read e` — the worker obtains event `e` from `read_loop`, performs the
  loop-head flag check of line 274 and, for a touch-down event, computes
  `elapsed` (line 278);
* `exec netOk` — the worker executes the branch (lines 280-319) on the
  pending event; `netOk` is the result the Network Settings launch would
  have (only consulted in the success branch);
* `fire` — the `timeout_handler` thread returns from `time.sleep` and
  runs its body (lines 254-264);
* `err` — `read_loop` raises and the worker runs the handler of lines
  323-331. -/
inductive TAct where
  | read (e : TEvent)
  | exec (networkOk : Bool)
  | fire
  | err
deriving DecidableEq, Repr

/-- Loop head of the worker (lines 273-278): break if the service went
inactive or a timeout was dispatched; otherwise, for a touch-down event,
record its `elapsed` (equal to the current time `t`) as pending. -/
def readStep (t : Time) (e : TEvent) (s : DetState) : DetState :=
  if s.workerDone = true ∨ s.pending ≠ none then s
  else if s.active = false ∨ s.timeoutTriggered = true then
    { s with workerDone := true }
  else if isTouchDown e = true then { s with pending := some t }
  else s

/-- Branch on a pending event (lines 280-319).  Inside the window the
count is incremented and, at `target_taps`, the success branch runs:
`touch_detection_active = False`, the Network Settings launch, and (on
its failure) a chromium-monitor thread.  Outside the window, if no
timeout has been dispatched yet, the time-exceeded branch runs:
`timeout_triggered = True`, `touch_detection_active = False`, and a
chromium-monitor thread. -/
def execStep (t : Time) (networkOk : Bool) (s : DetState) : DetState :=
  match s.pending with
  | none => s
  | some elapsed =>
    if elapsed ≤ time_window then
      if target_taps ≤ s.tapCount + 1 then
        { s with tapCount := s.tapCount + 1, active := false,
                 pending := none, workerDone := true,
                 log := s.log ++ [(t, RunEvt.confirmed (s.tapCount + 1) elapsed networkOk)] }
      else { s with tapCount := s.tapCount + 1, pending := none }
    else
      if s.timeoutTriggered = false then
        { s with timeoutTriggered := true, active := false,
                 pending := none, workerDone := true,
                 log := s.log ++ [(t, RunEvt.windowExceeded s.tapCount elapsed)] }
      else { s with pending := none }

/-- Body of `timeout_handler` after its sleep (lines 254-264): if fewer
than `target_taps` taps were counted and no timeout was dispatched yet,
set `timeout_triggered` and start a chromium-monitor thread.  Note that
it does not touch `touch_detection_active`. -/
def fireStep (t : Time) (s : DetState) : DetState :=
  if s.timerDone = true then s
  else if s.tapCount < target_taps ∧ s.timeoutTriggered = false then
    { s with timeoutTriggered := true, timerDone := true,
             log := s.log ++ [(t, RunEvt.timerTimeout s.tapCount)] }
  else { s with timerDone := true }

/-- Exception handler of the worker (lines 323-331): unconditionally
start a chromium-monitor thread and leave the loop.  No flag is set and
the timer is not stopped. -/
def errStep (t : Time) (s : DetState) : DetState :=
  if s.workerDone = true ∨ s.pending ≠ none then s
  else { s with workerDone := true,
                log := s.log ++ [(t, RunEvt.sourceError s.tapCount)] }

/-- One atomic action at time `t`. -/
def stepAct (t : Time) (a : TAct) (s : DetState) : DetState :=
  match a with
  | TAct.read e => readStep t e s
  | TAct.exec networkOk => execStep t networkOk s
  | TAct.fire => fireStep t s
  | TAct.err => errStep t s

/-- Run a whole interleaving (a list of timed actions). -/
def runTrace : List (Time × TAct) → DetState → DetState
  | [], s => s
  | p :: rest, s => runTrace rest (stepAct p.1 p.2 s)

/-- The timer action only becomes enabled once `time.sleep(time_window)`
has elapsed. -/
def fireGuardTime (t : Time) (a : TAct) : Bool :=
  match a with
  | TAct.fire => decide (time_window ≤ t)
  | _ => true

/-- A trace is valid from lower time bound `t0` when its times are
non-decreasing and every `fire` happens no earlier than `time_window`. -/
def validFrom (t0 : Time) : List (Time × TAct) → Bool
  | [] => true
  | p :: rest => decide (t0 ≤ p.1) && fireGuardTime p.1 p.2 && validFrom p.1 rest

/-- `true` for every action except the source-error action. -/
def notErr (a : TAct) : Bool :=
  match a with
  | TAct.err => false
  | _ => true

/-- The event source never raises during the trace. -/
def noErr : List (Time × TAct) → Bool
  | [] => true
  | p :: rest => notErr p.2 && noErr rest

/-- Contribution of one action to the count of qualifying touch-down
reads inside the window. -/
def qualBit (t : Time) (a : TAct) : Nat :=
  match a with
  | TAct.read e => if isTouchDown e = true ∧ t ≤ time_window then 1 else 0
  | _ => 0

/-- Number of touch-down events of the trace read inside the window. -/
def qualifyingReads : List (Time × TAct) → Nat
  | [] => 0
  | p :: rest => qualBit p.1 p.2 + qualifyingReads rest

/-- A pending in-window event accounts for one not-yet-counted tap. -/
def pendBit (s : DetState) : Nat :=
  match s.pending with
  | some el => if el ≤ time_window then 1 else 0
  | none => 0

/-- A dispatch branch that realises the `TimedOut` outcome of the spec with a
tap count below the target. -/
def TimedOutEvt : RunEvt → Prop
  | RunEvt.windowExceeded c _ => c < target_taps
  | RunEvt.timerTimeout c => c < target_taps
  | _ => False

/-- State evidence that an outcome has been produced by the
event-counting activity or the deadline watch: the Confirmed branch
leaves the tap count at the target with `touch_detection_active`
cleared, and both TimedOut branches set `timeout_triggered`.  The
source-error handler establishes neither disjunct. -/
abbrev outcomeGuard (s : DetState) : Prop :=
  s.timeoutTriggered = true ∨ (target_taps ≤ s.tapCount ∧ s.active = false)

/-- Invariant of a detection run, relative to a lower time bound `t0`
for all future actions and a budget `q` of qualifying reads still to
come: the tap count plus the pending tap plus the budget stays below the
target; a pending elapsed is in the past; and each of the two timeout
flags can only have been set by an already-logged dispatch. -/
structure DetInv (t0 : Time) (q : Nat) (s : DetState) : Prop where
  sum : s.tapCount + pendBit s + q < target_taps
  pend : ∀ el, s.pending = some el → el ≤ t0
  trig : s.timeoutTriggered = true → ∃ p, p ∈ s.log ∧ p.1 ≤ t0
  timer : s.timerDone = true → ∃ p, p ∈ s.log ∧ p.1 ≤ t0

/-- Entry point of `touch_detection_worker` (lines 236-268): if the
touchscreen device cannot be opened, the worker logs an error and
returns (lines 241-243) — before the timeout thread is started and
before any event is read — so nothing at all is dispatched. -/
def touch_detection_worker (openOk : Bool) (tr : List (Time × TAct)) : DetState :=
  if openOk = true then runTrace tr initState
  else { initState with workerDone := true }

/-! ## The process launcher (`launch_application`, lines 83-141) -/

/-- The ambient OS facts `launch_application` consults, plus the fate of
the `subprocess.Popen` call it makes:
* `geteuid` — `os.geteuid()`;
* `passwd` — the password database as (name, home directory, uid) rows
  (`pwd.getpwnam`);
* `environ` — `os.environ` as an association list (first match wins);
* `popenRaises` — whether `subprocess.Popen` raises;
* `aliveAfter1s` — whether `process.poll()` is still `None` after the
  `time.sleep(1)` of line 129;
* `pid` — the pid of the spawned process. -/
structure LaunchEnv where
  geteuid : Nat
  passwd : List (String × String × Nat)
  environ : List (String × String)
  popenRaises : Bool
  aliveAfter1s : Bool
  pid : Nat
deriving DecidableEq, Repr

/-- `pwd.getpwnam`: home directory and uid of a user, if present. -/
def getpwnam (passwd : List (String × String × Nat)) (u : String) :
    Option (String × Nat) :=
  (passwd.find? (fun e => e.1 == u)).map (fun e => e.2)

/-- Lookup in an association-list environment (first match wins). -/
def lookupEnv (e : List (String × String)) (k : String) : Option String :=
  (e.find? (fun p => p.1 == k)).map (fun p => p.2)

/-- The five variables `launch_application` sets for the target user
(lines 100-107).  Prepending them to the base environment gives the
dictionary-update semantics under `lookupEnv`. -/
def userEnvOverrides (u home : String) (uid : Nat) : List (String × String) :=
  [("HOME", home), ("USER", u), ("LOGNAME", u),
   ("XDG_RUNTIME_DIR", "/run/user/" ++ toString uid),
   ("XAUTHORITY", home ++ "/.Xauthority")]

/-- Lines 89-115 of `launch_application`: decide the final command and
environment.  `none` models the `return None` of line 97 (requested user
absent from the password database).  The guard mirrors
`if user and user != root and os.geteuid() == 0` (an empty user string
is falsy in Python). -/
def resolveCommandEnv (env : LaunchEnv) (command : List String)
    (user : Option String) : Option (List String × List (String × String)) :=
  match user with
  | none => some (command, env.environ)
  | some u =>
    if u ≠ "" ∧ u ≠ "root" ∧ env.geteuid = 0 then
      match getpwnam env.passwd u with
      | none => none
      | some (home, uid) =>
          some (["sudo", "-u", u, "-E"] ++ command,
                userEnvOverrides u home uid ++ env.environ)
    else some (command, env.environ)

/-- `launch_application` (lines 83-141): resolve the command, `Popen`
it, sleep one second, and report the process handle only if it is still
running; otherwise report `None`. -/
def launch_application (env : LaunchEnv) (command : List String)
    (user : Option String) : Option Nat :=
  match resolveCommandEnv env command user with
  | none => none
  | some _ =>
    if env.popenRaises = true then none
    else if env.aliveAfter1s = true then some env.pid
    else none

/-! ## The chromium supervisor (`monitor_and_restart_chromium`, lines 143-167) -/

/-- Fate of one iteration of the monitoring loop:
* `naturalExit` — `launch_application` returned a process and
  `chromium_process.wait()` returned;
* `launchFailed` — `launch_application` returned `None`;
* `bodyError` — the loop body raised (caught at lines 163-165). -/
inductive MonResult where
  | naturalExit
  | launchFailed
  | bodyError
deriving DecidableEq, Repr

/-- Input to one iteration of the monitoring loop: the value of
`touch_detection_active` at the `while` check, and the fate of the
iteration. -/
structure MonInput where
  active : Bool
  result : MonResult
deriving DecidableEq, Repr

/-- Observable actions of the monitoring loop. -/
inductive MonAct where
  | launch (appName : String) (command : List String) (user : Option String)
  | waitExit
  | sleep (secs : Nat)
deriving DecidableEq, Repr

/-- The launch spec of line 151:
`launch_application("chromium", ["chromium"], "kiosk-user")`. -/
def chromiumSpec : MonAct :=
  MonAct.launch "chromium" ["chromium"] (some "kiosk-user")

/-- `monitor_and_restart_chromium` (lines 143-167): while
`touch_detection_active`, attempt the chromium launch; on natural exit
sleep 3 seconds and loop; on launch failure sleep 10 seconds and loop;
on a body exception sleep 5 seconds and loop.  When the flag is false,
the loop (and the function) ends. -/
def monitorTrace : List MonInput → List MonAct
  | [] => []
  | i :: rest =>
    if i.active = true then
      chromiumSpec ::
        (match i.result with
         | MonResult.naturalExit =>
             MonAct.waitExit :: MonAct.sleep 3 :: monitorTrace rest
         | MonResult.launchFailed => MonAct.sleep 10 :: monitorTrace rest
         | MonResult.bodyError => MonAct.sleep 5 :: monitorTrace rest)
    else []

/-- Number of chromium launch attempts (all with the same spec) in a
monitoring trace. -/
def launchCount : List MonAct → Nat
  | [] => 0
  | a :: rest => (if a = chromiumSpec then 1 else 0) + launchCount rest

/-! ## Concrete runs and environments used by witnesses and counterexamples -/

/-- One in-window tap handled at second `t`: the event is read and its
branch is executed at the same instant. -/
def tapPair (networkOk : Bool) (t : Time) : List (Time × TAct) :=
  [(t, TAct.read touchDownEvent), (t, TAct.exec networkOk)]

/-- Ten taps at seconds 1 to 10, with the Network Settings launch
failing at the tenth. -/
def confirmFailTrace : List (Time × TAct) :=
  tapPair false 1 ++ tapPair false 2 ++ tapPair false 3 ++ tapPair false 4
    ++ tapPair false 5 ++ tapPair false 6 ++ tapPair false 7
    ++ tapPair false 8 ++ tapPair false 9 ++ tapPair false 10

/-- Nine taps at seconds 1 to 9; the tenth touch-down is read at elapsed
exactly 10, the timer fires before the branch of that event is executed,
then the branch runs. -/
def raceTrace : List (Time × TAct) :=
  tapPair true 1 ++ tapPair true 2 ++ tapPair true 3 ++ tapPair true 4
    ++ tapPair true 5 ++ tapPair true 6 ++ tapPair true 7
    ++ tapPair true 8 ++ tapPair true 9
    ++ [((10 : ℚ), TAct.read touchDownEvent), ((10 : ℚ), TAct.fire),
        ((10 : ℚ), TAct.exec true)]

/-- The event source raises at second 1; the timer fires at second 10. -/
def errFireTrace : List (Time × TAct) :=
  [((1 : ℚ), TAct.err), ((10 : ℚ), TAct.fire)]

/-- Two taps at seconds 1 and 5, the timer firing at second 11. -/
def fewTapsTrace : List (Time × TAct) :=
  [((1 : ℚ), TAct.read touchDownEvent), ((1 : ℚ), TAct.exec true),
   ((5 : ℚ), TAct.read touchDownEvent), ((5 : ℚ), TAct.exec true),
   ((11 : ℚ), TAct.fire)]

/-- A state reached after the timer dispatched a timeout at 3 taps. -/
def timedOutState : DetState :=
  { tapCount := 3, timeoutTriggered := true, active := true,
    workerDone := false, timerDone := true, pending := none,
    log := [((10 : ℚ), RunEvt.timerTimeout 3)] }

/-- A worker state with nine taps counted and a tenth touch-down read at
elapsed exactly `time_window`, not yet processed. -/
def nineTapState : DetState :=
  { tapCount := 9, timeoutTriggered := false, active := true,
    workerDone := false, timerDone := false, pending := some time_window,
    log := [] }

/-- Three natural exits of the chromium process in a row, with the
service alive throughout. -/
def threeNaturalExits : List MonInput :=
  List.replicate 3 { active := true, result := MonResult.naturalExit }

/-- Three failed chromium launches in a row, with the service alive
throughout. -/
def threeFailedLaunches : List MonInput :=
  List.replicate 3 { active := true, result := MonResult.launchFailed }

/-- A root daemon on a host whose password database has no user
`alice`. -/
def rootNoAliceEnv : LaunchEnv :=
  { geteuid := 0,
    passwd := [("root", "/root", 0), ("kiosk-user", "/home/kiosk-user", 1000)],
    environ := [("DISPLAY", ":0")],
    popenRaises := false, aliveAfter1s := true, pid := 77 }

/-- A root daemon whose spawned process exits within the first second. -/
def earlyExitEnv : LaunchEnv :=
  { geteuid := 0,
    passwd := [("root", "/root", 0), ("kiosk-user", "/home/kiosk-user", 1000)],
    environ := [("DISPLAY", ":0")],
    popenRaises := false, aliveAfter1s := false, pid := 91 }

/-! ## Helper lemmas -/

theorem detInvMono {t0 t : Time} {q q2 : Nat} {s : DetState}
    (h0 : t0 ≤ t) (hq : q ≤ q2) (h : DetInv t0 q2 s) : DetInv t q s := by
  obtain ⟨hs, hp, ht, hm⟩ := h
  refine ⟨by omega, fun el hel => le_trans (hp el hel) h0, ?_, ?_⟩
  · intro hh; obtain ⟨p, hmem, hle⟩ := ht hh; exact ⟨p, hmem, le_trans hle h0⟩
  · intro hh; obtain ⟨p, hmem, hle⟩ := hm hh; exact ⟨p, hmem, le_trans hle h0⟩

/-- One action of a detection run preserves the invariant, only ever
appends a timed-out dispatch with a below-target count at a time past
the window, and, if it is the timer firing at time `t`, guarantees a
logged dispatch no later than `t`. -/
theorem stepPres (t0 t : Time) (q : Nat) (a : TAct) (s : DetState)
    (h0 : t0 ≤ t) (hft : fireGuardTime t a = true) (hna : notErr a = true)
    (hInv : DetInv t0 (qualBit t a + q) s) :
    DetInv t q (stepAct t a s)
    ∧ ((stepAct t a s).log = s.log ∨
        ∃ ev, (stepAct t a s).log = s.log ++ [(t, ev)] ∧ TimedOutEvt ev ∧ time_window ≤ t)
    ∧ (a = TAct.fire → ∃ p, p ∈ (stepAct t a s).log ∧ p.1 ≤ t) := by
  obtain ⟨hsum, hpend, htrig, htimer⟩ := hInv
  have hmono : DetInv t q s :=
    detInvMono h0 (Nat.le_add_left q (qualBit t a)) ⟨hsum, hpend, htrig, htimer⟩
  obtain ⟨hs, hp2, ht2, hm2⟩ := hmono
  cases a with
  | read e =>
    simp only [stepAct, readStep]
    split_ifs with h1 h2 h3
    · exact ⟨⟨hs, hp2, ht2, hm2⟩, Or.inl rfl, by simp⟩
    · exact ⟨⟨hs, hp2, ht2, hm2⟩, Or.inl rfl, by simp⟩
    · have hpnone : s.pending = none := by
        push_neg at h1
        exact h1.2
      have hpb : pendBit s = 0 := by simp [pendBit, hpnone]
      refine ⟨⟨?_, ?_, ?_, ?_⟩, Or.inl rfl, by simp⟩
      · simp only [pendBit]
        by_cases hw : t ≤ time_window
        · simp only [qualBit, h3, hw, and_self, if_true] at hsum
          simp only [hw, if_true]
          omega
        · simp only [qualBit, hw, and_false, if_false] at hsum
          simp only [hw, if_false]
          omega
      · intro el hel
        simp only [Option.some.injEq] at hel
        subst hel
        exact le_refl t
      · intro hh
        obtain ⟨p, hmem, hle⟩ := ht2 hh
        exact ⟨p, hmem, hle⟩
      · intro hh
        obtain ⟨p, hmem, hle⟩ := hm2 hh
        exact ⟨p, hmem, hle⟩
    · exact ⟨⟨hs, hp2, ht2, hm2⟩, Or.inl rfl, by simp⟩
  | exec networkOk =>
    simp only [stepAct, execStep]
    rcases hp : s.pending with _ | el
    · simp only [hp]
      exact ⟨⟨hs, hp2, ht2, hm2⟩, by simp, by simp⟩
    · have hel : el ≤ t0 := hpend el hp
      have hpb : pendBit s = (if el ≤ time_window then 1 else 0) := by
        simp [pendBit, hp]
      simp only [hp]
      split_ifs with h1 h2 h3
      · exfalso
        rw [hpb, if_pos h1] at hsum
        simp only [qualBit] at hsum
        omega
      · refine ⟨⟨?_, by simp, ?_, ?_⟩, Or.inl rfl, by simp⟩
        · simp only [pendBit]
          rw [hpb, if_pos h1] at hsum
          simp only [qualBit] at hsum
          omega
        · intro hh
          obtain ⟨p, hmem, hle⟩ := ht2 hh
          exact ⟨p, hmem, hle⟩
        · intro hh
          obtain ⟨p, hmem, hle⟩ := hm2 hh
          exact ⟨p, hmem, hle⟩
      · have hwt : time_window ≤ t :=
          le_of_lt (lt_of_lt_of_le (not_le.mp h1) (le_trans hel h0))
        have hc : s.tapCount < target_taps := by
          simp only [qualBit] at hsum
          omega
        refine ⟨⟨?_, by simp, ?_, ?_⟩, ?_, by simp⟩
        · simp only [pendBit]
          rw [hpb, if_neg h1] at hsum
          simp only [qualBit] at hsum
          omega
        · intro _
          exact ⟨(t, RunEvt.windowExceeded s.tapCount el), by simp, le_refl t⟩
        · intro hh
          obtain ⟨p, hmem, hle⟩ := hm2 hh
          exact ⟨p, by simp [hmem], hle⟩
        · exact Or.inr ⟨RunEvt.windowExceeded s.tapCount el, rfl, hc, hwt⟩
      · refine ⟨⟨?_, by simp, ?_, ?_⟩, Or.inl rfl, by simp⟩
        · simp only [pendBit]
          rw [hpb, if_neg h1] at hsum
          simp only [qualBit] at hsum
          omega
        · intro hh
          obtain ⟨p, hmem, hle⟩ := ht2 hh
          exact ⟨p, hmem, hle⟩
        · intro hh
          obtain ⟨p, hmem, hle⟩ := hm2 hh
          exact ⟨p, hmem, hle⟩
  | fire =>
    have hwt : time_window ≤ t := by
      simpa [fireGuardTime] using hft
    simp only [stepAct, fireStep]
    split_ifs with h1 h2
    · refine ⟨⟨hs, hp2, ht2, hm2⟩, Or.inl rfl, ?_⟩
      intro _
      obtain ⟨p, hmem, hle⟩ := hm2 h1
      exact ⟨p, hmem, hle⟩
    · refine ⟨⟨?_, ?_, ?_, ?_⟩, ?_, ?_⟩
      · simp only [pendBit]
        simp only [qualBit] at hsum
        simp only [pendBit] at hsum
        omega
      · intro el hel
        exact hp2 el hel
      · intro _
        exact ⟨(t, RunEvt.timerTimeout s.tapCount), by simp, le_refl t⟩
      · intro _
        exact ⟨(t, RunEvt.timerTimeout s.tapCount), by simp, le_refl t⟩
      · exact Or.inr ⟨RunEvt.timerTimeout s.tapCount, rfl, h2.1, hwt⟩
      · intro _
        exact ⟨(t, RunEvt.timerTimeout s.tapCount), by simp, le_refl t⟩
    · have hc : s.tapCount < target_taps := by
        simp only [qualBit] at hsum
        omega
      have htt : s.timeoutTriggered = true := by
        by_contra hfa
        exact h2 ⟨hc, by simpa using hfa⟩
      obtain ⟨p, hmem, hle⟩ := ht2 htt
      refine ⟨⟨?_, ?_, ?_, ?_⟩, Or.inl rfl, ?_⟩
      · simp only [pendBit]
        simp only [qualBit, pendBit] at hsum
        omega
      · intro el hel
        exact hp2 el hel
      · intro _
        exact ⟨p, hmem, hle⟩
      · intro _
        exact ⟨p, hmem, hle⟩
      · intro _
        exact ⟨p, hmem, hle⟩
  | err =>
    simp [notErr] at hna

/-- Running an error-free valid trace from an invariant state only grows
the log, every new entry is a timed-out dispatch with a below-target
count at a time past the window, and every timer firing at time `tf`
guarantees a logged dispatch no later than `tf`. -/
theorem detRunMaster (tr : List (Time × TAct)) : ∀ (t0 : Time) (q : Nat) (s : DetState),
    validFrom t0 tr = true → noErr tr = true →
    DetInv t0 (qualifyingReads tr + q) s →
    (∀ p, p ∈ s.log → p ∈ (runTrace tr s).log)
    ∧ (∀ p, p ∈ (runTrace tr s).log → p ∈ s.log ∨ (time_window ≤ p.1 ∧ TimedOutEvt p.2))
    ∧ (∀ tf, (tf, TAct.fire) ∈ tr → ∃ p, p ∈ (runTrace tr s).log ∧ p.1 ≤ tf) := by
  induction tr with
  | nil =>
    intro t0 q s _ _ _
    refine ⟨fun p hp => hp, fun p hp => Or.inl hp, ?_⟩
    intro tf htf
    simp at htf
  | cons hd rest ih =>
    intro t0 q s hv hne hInv
    obtain ⟨t, a⟩ := hd
    simp only [validFrom, Bool.and_eq_true, decide_eq_true_eq] at hv
    obtain ⟨⟨h0, hft⟩, hvr⟩ := hv
    simp only [noErr, Bool.and_eq_true] at hne
    obtain ⟨hna, hner⟩ := hne
    have hInv2 : DetInv t0 (qualBit t a + (qualifyingReads rest + q)) s := by
      have heq : qualifyingReads ((t, a) :: rest) + q
          = qualBit t a + (qualifyingReads rest + q) := by
        simp only [qualifyingReads]
        omega
      exact heq ▸ hInv
    obtain ⟨inv1, logchar, firemem⟩ :=
      stepPres t0 t (qualifyingReads rest + q) a s h0 hft hna hInv2
    obtain ⟨mono, char, fires⟩ := ih t q (stepAct t a s) hvr hner inv1
    have hrun : runTrace ((t, a) :: rest) s = runTrace rest (stepAct t a s) := rfl
    rw [hrun]
    refine ⟨?_, ?_, ?_⟩
    · intro p hp
      refine mono p ?_
      rcases logchar with h | ⟨ev, h, _, _⟩
      · rw [h]; exact hp
      · rw [h]; exact List.mem_append_left _ hp
    · intro p hp
      rcases char p hp with h | h
      · rcases logchar with h2 | ⟨ev, h2, hev, hwt⟩
        · rw [h2] at h
          exact Or.inl h
        · rw [h2] at h
          rcases List.mem_append.mp h with h3 | h3
          · exact Or.inl h3
          · simp only [List.mem_singleton] at h3
            subst h3
            exact Or.inr ⟨hwt, hev⟩
      · exact Or.inr h
    · intro tf htf
      rcases List.mem_cons.mp htf with h | h
      · simp only [Prod.mk.injEq] at h
        obtain ⟨htf2, ha⟩ := h
        obtain ⟨p, hp1, hle⟩ := firemem ha.symm
        refine ⟨p, mono p hp1, ?_⟩
        rw [htf2]
        exact hle
      · exact fires tf h

/-- While `touch_detection_active` stays true, every iteration of the
monitoring loop attempts the same chromium launch. -/
theorem launchCount_all_active (inputs : List MonInput)
    (hall : ∀ i, i ∈ inputs → i.active = true) :
    launchCount (monitorTrace inputs) = inputs.length := by
  induction inputs with
  | nil => rfl
  | cons hd rest ih =>
    have hhd : hd.active = true := hall hd (List.mem_cons_self hd rest)
    have hrest := ih (fun i hi => hall i (List.mem_cons_of_mem hd hi))
    cases hr : hd.result <;>
      simp [monitorTrace, hhd, hr, launchCount, chromiumSpec, hrest] <;>
      omega

/-! ## Claims -/

/-- Claim C1: once the kiosk-browser fallback loop is running and the
service is not shutting down, a natural exit of the chromium process is
always followed by the fixed 3-second backoff and a relaunch of the same
LaunchSpec, and the loop launches that same LaunchSpec on every
iteration for as long as the service stays active — it never permanently
stops. -/
theorem c1_perpetual_restart (rest inputs : List MonInput)
    (hall : ∀ i, i ∈ inputs → i.active = true) :
    monitorTrace ({ active := true, result := MonResult.naturalExit } :: rest)
      = chromiumSpec :: MonAct.waitExit :: MonAct.sleep 3 :: monitorTrace rest
    ∧ launchCount (monitorTrace inputs) = inputs.length :=
  ⟨by simp [monitorTrace], launchCount_all_active inputs hall⟩

/-- Witness for C1 at scenario D: three consecutive natural exits, each
relaunch preceded by the 3-second backoff, three launches of the same
LaunchSpec. -/
theorem c1_perpetual_restart_witness :
    monitorTrace ({ active := true, result := MonResult.naturalExit } :: threeNaturalExits)
      = chromiumSpec :: MonAct.waitExit :: MonAct.sleep 3 :: monitorTrace threeNaturalExits
    ∧ launchCount (monitorTrace threeNaturalExits) = threeNaturalExits.length :=
  c1_perpetual_restart threeNaturalExits threeNaturalExits (by decide)

/-- Claim C8: a failed chromium launch is followed by the 10-second
backoff and a retry of the same LaunchSpec, and the loop keeps
attempting that same LaunchSpec on every iteration for as long as the
service stays active — the retry loop never gives up. -/
theorem c8_retry_failed_launch (rest inputs : List MonInput)
    (hall : ∀ i, i ∈ inputs → i.active = true) :
    monitorTrace ({ active := true, result := MonResult.launchFailed } :: rest)
      = chromiumSpec :: MonAct.sleep 10 :: monitorTrace rest
    ∧ launchCount (monitorTrace inputs) = inputs.length :=
  ⟨by simp [monitorTrace], launchCount_all_active inputs hall⟩

/-- Witness for C8: three consecutive failed launches, each retry
preceded by the 10-second backoff, three attempts of the same
LaunchSpec. -/
theorem c8_retry_failed_launch_witness :
    monitorTrace ({ active := true, result := MonResult.launchFailed } :: threeFailedLaunches)
      = chromiumSpec :: MonAct.sleep 10 :: monitorTrace threeFailedLaunches
    ∧ launchCount (monitorTrace threeFailedLaunches) = threeFailedLaunches.length :=
  c8_retry_failed_launch threeFailedLaunches threeFailedLaunches (by decide)

/-- Claim C2 (code bug): when the gesture is confirmed and the Network
Settings launch fails, the code records the confirmed dispatch with the
failed launch — but it has already set `touch_detection_active` to
false (line 286), so the chromium-monitor thread it then starts finds
its `while touch_detection_active` condition false and never launches
chromium at all, contrary to the claimed immediate fallback launch. -/
theorem c2_fallback_monitor_dead :
    ((runTrace confirmFailTrace initState).log
        = [((10 : ℚ), RunEvt.confirmed 10 10 false)]
      ∧ (runTrace confirmFailTrace initState).active = false)
    ∧ ∀ r rest, monitorTrace ({ active := false, result := r } :: rest) = [] := by
  refine ⟨by decide, ?_⟩
  intro r rest
  simp [monitorTrace]

/-- Claim C3 (code bug): if the touchscreen device cannot be opened at
startup, the worker returns before the timeout thread is started and
before anything is dispatched, so no kiosk-browser fallback is ever
launched — whatever events or timer firings real time would have
offered. -/
theorem c3_no_fallback_on_device_error (tr : List (Time × TAct)) :
    (touch_detection_worker false tr).log = []
    ∧ (touch_detection_worker false tr).workerDone = true := by
  constructor <;> rfl

/-- Counterexample to C4 as stated: a valid interleaving in which the
timer fires between the reading of the tenth in-window tap and the
processing of that tap, so the run dispatches both a TimedOut outcome
(chromium monitor) and a Confirmed outcome (Network Settings): two
target-selections in one run. -/
theorem c4_counterexample :
    validFrom 0 raceTrace = true
    ∧ (runTrace raceTrace initState).log
        = [((10 : ℚ), RunEvt.timerTimeout 9),
           ((10 : ℚ), RunEvt.confirmed 10 10 true)] := by
  constructor <;> decide

/-- Claim C4 as amended: every outcome-producing step of the
event-counting activity or the deadline watch (the Confirmed,
window-exceeded and timer-timeout branches) leaves the run in a state
satisfying `outcomeGuard`; the source-error handler, by contrast,
touches none of the guard fields (so a SourceFailed outcome neither
blocks the deadline watch nor is blocked by it); and from any
`outcomeGuard` state with no event half-processed, every later
event-processing or timer action of the run is a no-op — the log never
grows, so those two activities dispatch no further outcome.  (The
unamended claim fails for an attempt already in flight when the outcome
is produced, as in the counterexample, and for the unguarded
SourceFailed handler, whose interaction with the timer is settled under
C5.) -/
theorem c4_no_second_outcome (tr : List (Time × TAct)) (s s2 s3 : DetState)
    (t t3 : Time) (a : TAct) (ha : notErr a = true)
    (hp : s.pending = none) (hne : noErr tr = true)
    (hout : outcomeGuard s) :
    ((stepAct t a s2).log ≠ s2.log → outcomeGuard (stepAct t a s2))
    ∧ ((errStep t3 s3).timeoutTriggered = s3.timeoutTriggered
        ∧ (errStep t3 s3).tapCount = s3.tapCount
        ∧ (errStep t3 s3).active = s3.active
        ∧ (errStep t3 s3).timerDone = s3.timerDone)
    ∧ (runTrace tr s).log = s.log := by
  refine ⟨?_, ?_, ?_⟩
  · cases a with
    | read e =>
      intro hlog
      exfalso
      apply hlog
      simp only [stepAct, readStep]
      split_ifs <;> rfl
    | exec networkOk =>
      intro hlog
      simp only [stepAct, execStep] at hlog ⊢
      rcases hpw : s2.pending with _ | el
      · rw [hpw] at hlog
        exact absurd rfl hlog
      · rw [hpw] at hlog
        dsimp only at hlog ⊢
        split_ifs at hlog ⊢ with h1 h2 h3
        · exact Or.inr ⟨h2, rfl⟩
        · exact absurd rfl hlog
        · exact Or.inl rfl
        · exact absurd rfl hlog
    | fire =>
      intro hlog
      simp only [stepAct, fireStep] at hlog ⊢
      split_ifs at hlog ⊢ with h1 h2
      · exact absurd rfl hlog
      · exact Or.inl rfl
      · exact absurd rfl hlog
    | err =>
      simp [notErr] at ha
  · unfold errStep
    split_ifs <;> exact ⟨rfl, rfl, rfl, rfl⟩
  · induction tr generalizing s with
  | nil => rfl
  | cons hd rest ih =>
    obtain ⟨t, a⟩ := hd
    simp only [noErr, Bool.and_eq_true] at hne
    obtain ⟨hna, hner⟩ := hne
    have hstep : (stepAct t a s).log = s.log
        ∧ (stepAct t a s).pending = none
        ∧ ((stepAct t a s).timeoutTriggered = true
            ∨ (target_taps ≤ (stepAct t a s).tapCount
                ∧ (stepAct t a s).active = false)) := by
      cases a with
      | read e =>
        simp only [stepAct, readStep]
        split_ifs with h1 h2 h3
        · exact ⟨rfl, hp, hout⟩
        · exact ⟨rfl, hp, hout⟩
        · exfalso
          push_neg at h2
          rcases hout with h | h
          · exact h2.2 h
          · exact h2.1 h.2
        · exact ⟨rfl, hp, hout⟩
      | exec networkOk =>
        simp only [stepAct, execStep, hp]
        exact ⟨trivial, trivial, hout⟩
      | fire =>
        simp only [stepAct, fireStep]
        split_ifs with h1 h2
        · exact ⟨rfl, hp, hout⟩
        · exfalso
          rcases hout with h | h
          · rw [h2.2] at h
            exact absurd h (by simp)
          · have := h2.1
            omega
        · exact ⟨rfl, hp, hout⟩
      | err =>
        simp [notErr] at hna
    have hrun : runTrace ((t, a) :: rest) s = runTrace rest (stepAct t a s) := rfl
    rw [hrun, ih (stepAct t a s) hstep.2.1 hner hstep.2.2, hstep.1]

/-- Witness for the amended C4: the timer dispatching from the initial
state establishes the guard; a source error leaves every guard field of
a timed-out state unchanged; and after a timer timeout, a further read
and a further timer action add nothing to the log. -/
theorem c4_no_second_outcome_witness :
    ((stepAct 10 TAct.fire initState).log ≠ initState.log →
        outcomeGuard (stepAct 10 TAct.fire initState))
    ∧ ((errStep 1 timedOutState).timeoutTriggered = timedOutState.timeoutTriggered
        ∧ (errStep 1 timedOutState).tapCount = timedOutState.tapCount
        ∧ (errStep 1 timedOutState).active = timedOutState.active
        ∧ (errStep 1 timedOutState).timerDone = timedOutState.timerDone)
    ∧ (runTrace [((11 : ℚ), TAct.read touchDownEvent), ((11 : ℚ), TAct.fire)]
        timedOutState).log = timedOutState.log :=
  c4_no_second_outcome
    [((11 : ℚ), TAct.read touchDownEvent), ((11 : ℚ), TAct.fire)]
    timedOutState initState timedOutState 10 1 TAct.fire rfl rfl
    (by decide) (Or.inl rfl)

/-- Counterexample to C5 as stated: the source error at second 1
dispatches the fallback, but the timer is not stopped — it fires at
second 10 and dispatches a second fallback for the same run. -/
theorem c5_counterexample :
    validFrom 0 errFireTrace = true
    ∧ (runTrace errFireTrace initState).log
        = [((1 : ℚ), RunEvt.sourceError 0), ((10 : ℚ), RunEvt.timerTimeout 0)] := by
  constructor <;> decide

/-- Claim C5 as amended: a fatal source error before any outcome makes
the worker dispatch the kiosk-browser fallback, but the deadline timer
is not stopped: if it has not yet fired and the tap count is below the
target, its later firing dispatches a second fallback for the same
run. -/
theorem c5_timer_not_stopped (s : DetState) (t t2 : Time)
    (hw : s.workerDone = false) (hp : s.pending = none)
    (ht : s.timeoutTriggered = false) (hc : s.tapCount < target_taps)
    (hd : s.timerDone = false) :
    (errStep t s).log = s.log ++ [(t, RunEvt.sourceError s.tapCount)]
    ∧ (fireStep t2 (errStep t s)).log
        = s.log ++ [(t, RunEvt.sourceError s.tapCount),
                    (t2, RunEvt.timerTimeout s.tapCount)] := by
  have he : errStep t s = { s with workerDone := true, log := s.log ++ [(t, RunEvt.sourceError s.tapCount)] } := by
    unfold errStep
    rw [if_neg]
    push_neg
    exact ⟨by simp [hw], by simp [hp]⟩
  rw [he]
  refine ⟨rfl, ?_⟩
  unfold fireStep
  rw [if_neg (by simp [hd]), if_pos ⟨hc, ht⟩]
  simp

/-- Witness for the amended C5, from the initial state. -/
theorem c5_timer_not_stopped_witness :
    (errStep 1 initState).log = initState.log ++ [((1 : ℚ), RunEvt.sourceError 0)]
    ∧ (fireStep 10 (errStep 1 initState)).log
        = initState.log ++ [((1 : ℚ), RunEvt.sourceError 0),
                            ((10 : ℚ), RunEvt.timerTimeout 0)] :=
  c5_timer_not_stopped initState 1 10 rfl rfl rfl (by decide) rfl

/-- Claim C6: a touch-down whose `elapsed` equals `time_window` exactly
is inside the window — its branch increments the tap count — and if
that increment reaches the target the dispatched outcome is the
Confirmed one, not the time-exceeded one. -/
theorem c6_inclusive_boundary (s : DetState) (t : Time) (networkOk : Bool)
    (hp : s.pending = some time_window) :
    (target_taps ≤ s.tapCount + 1 →
      execStep t networkOk s
        = { s with tapCount := s.tapCount + 1, active := false,
                   pending := none, workerDone := true,
                   log := s.log ++ [(t, RunEvt.confirmed (s.tapCount + 1) time_window networkOk)] })
    ∧ (s.tapCount + 1 < target_taps →
      execStep t networkOk s
        = { s with tapCount := s.tapCount + 1, pending := none }) := by
  constructor
  · intro h
    simp only [execStep, hp]
    rw [if_pos (le_refl time_window), if_pos h]
  · intro h
    simp only [execStep, hp]
    rw [if_pos (le_refl time_window), if_neg (by omega)]

/-- Witness for C6: the tenth tap read at elapsed exactly 10 confirms
the gesture. -/
theorem c6_inclusive_boundary_witness :
    execStep 10 true nineTapState
      = { nineTapState with
          tapCount := 10, active := false,
          pending := none, workerDone := true,
          log := [((10 : ℚ), RunEvt.confirmed 10 time_window true)] } :=
  (c6_inclusive_boundary nineTapState 10 true rfl).1 (by decide)

/-- Claim C7: on any valid error-free schedule with fewer than
`target_taps` in-window touch-down events, every dispatched outcome is a
TimedOut one with a below-target tap count, dispatched no earlier than
the window; and some outcome is dispatched no later than the instant the
timer fires. -/
theorem c7_timeout_outcome (tr : List (Time × TAct)) (tf : Time)
    (hv : validFrom 0 tr = true) (hne : noErr tr = true)
    (hq : qualifyingReads tr < target_taps)
    (hf : (tf, TAct.fire) ∈ tr) :
    (∀ p, p ∈ (runTrace tr initState).log → time_window ≤ p.1 ∧ TimedOutEvt p.2)
    ∧ ∃ p, p ∈ (runTrace tr initState).log ∧ p.1 ≤ tf := by
  have hInv : DetInv 0 (qualifyingReads tr + 0) initState := by
    refine ⟨?_, ?_, ?_, ?_⟩
    · simp only [initState, pendBit]
      omega
    · intro el hel
      simp [initState] at hel
    · intro hh
      simp [initState] at hh
    · intro hh
      simp [initState] at hh
  obtain ⟨mono, char, fires⟩ := detRunMaster tr 0 0 initState hv hne hInv
  refine ⟨?_, fires tf hf⟩
  intro p hp
  rcases char p hp with h | h
  · simp [initState] at h
  · exact h

/-- Witness for C7 at scenario B shape: two taps inside the window, the
timer firing at second 11. -/
theorem c7_timeout_outcome_witness :
    (validFrom 0 fewTapsTrace = true ∧ noErr fewTapsTrace = true
      ∧ qualifyingReads fewTapsTrace < target_taps
      ∧ ((11 : ℚ), TAct.fire) ∈ fewTapsTrace)
    ∧ ((∀ p, p ∈ (runTrace fewTapsTrace initState).log
          → time_window ≤ p.1 ∧ TimedOutEvt p.2)
        ∧ ∃ p, p ∈ (runTrace fewTapsTrace initState).log ∧ p.1 ≤ (11 : ℚ)) :=
  ⟨⟨by decide, by decide, by decide, by decide⟩,
   c7_timeout_outcome fewTapsTrace 11 (by decide) (by decide)
     (by decide) (by decide)⟩

/-- Claim C9: `launch_application` reports a handle exactly when the
command resolved, `Popen` did not raise, and the process was still
running one second after the spawn; a process that exits within that
second is reported as a launch failure. -/
theorem c9_started_only_if_alive (env : LaunchEnv) (command : List String)
    (user : Option String) :
    ((launch_application env command user).isSome
      ↔ (resolveCommandEnv env command user).isSome
          ∧ env.popenRaises = false ∧ env.aliveAfter1s = true)
    ∧ (env.aliveAfter1s = false → launch_application env command user = none) := by
  constructor
  · unfold launch_application
    cases hr : resolveCommandEnv env command user
    · simp [hr]
    · cases hpo : env.popenRaises <;> cases ha : env.aliveAfter1s <;> simp [hr, hpo, ha]
  · intro ha
    unfold launch_application
    cases hr : resolveCommandEnv env command user
    · simp
    · cases hpo : env.popenRaises <;> simp [hpo, ha]

/-- Witness for C9: a successfully spawned process that exits within
the first second is reported as a launch failure. -/
theorem c9_started_only_if_alive_witness :
    earlyExitEnv.aliveAfter1s = false
    ∧ launch_application earlyExitEnv ["chromium"] (some "kiosk-user") = none :=
  ⟨rfl, (c9_started_only_if_alive earlyExitEnv ["chromium"] (some "kiosk-user")).2 rfl⟩

/-- Counterexample to C10 as stated: running as root with the requested
identity `alice` absent from the password database, the launch fails
outright (`None` before any `Popen`), while the identical launch with no
identity succeeds — so the identity parameter is not silently ignored in
every non-switching case. -/
theorem c10_counterexample :
    launch_application rootNoAliceEnv ["chromium"] (some "alice") = none
    ∧ launch_application rootNoAliceEnv ["chromium"] none = some 77 := by
  constructor <;> decide

/-- Claim C10 as amended: the command is wrapped in sudo with the five
target-user environment variables exactly when the effective UID is 0
and the requested identity is non-empty, not root, and present in the
password database; with a non-zero UID, identity root, or no identity,
the command and environment are unchanged; and when running as root with
a non-root identity absent from the password database, the launch fails
with `None` instead of running as the current user. -/
theorem c10_identity_switch (env : LaunchEnv) (command : List String)
    (u home : String) (uid : Nat) :
    (u ≠ "" → u ≠ "root" → env.geteuid = 0 →
      getpwnam env.passwd u = some (home, uid) →
      resolveCommandEnv env command (some u)
        = some (["sudo", "-u", u, "-E"] ++ command,
                userEnvOverrides u home uid ++ env.environ))
    ∧ (env.geteuid ≠ 0 →
        resolveCommandEnv env command (some u) = some (command, env.environ))
    ∧ resolveCommandEnv env command (some "root") = some (command, env.environ)
    ∧ resolveCommandEnv env command none = some (command, env.environ)
    ∧ (u ≠ "" → u ≠ "root" → env.geteuid = 0 → getpwnam env.passwd u = none →
        launch_application env command (some u) = none) := by
  refine ⟨?_, ?_, ?_, rfl, ?_⟩
  · intro h1 h2 h3 h4
    simp [resolveCommandEnv, h1, h2, h3, h4]
  · intro h
    simp [resolveCommandEnv, h]
  · simp [resolveCommandEnv]
  · intro h1 h2 h3 h4
    simp [launch_application, resolveCommandEnv, h1, h2, h3, h4]

/-- Witness for the amended C10: as root, the present user `kiosk-user`
gets the sudo wrap and environment, while the absent user `alice` makes
the launch fail. -/
theorem c10_identity_switch_witness :
    resolveCommandEnv rootNoAliceEnv ["chromium"] (some "kiosk-user")
      = some (["sudo", "-u", "kiosk-user", "-E"] ++ ["chromium"],
              userEnvOverrides "kiosk-user" "/home/kiosk-user" 1000
                ++ rootNoAliceEnv.environ)
    ∧ launch_application rootNoAliceEnv ["chromium"] (some "alice") = none :=
  ⟨(c10_identity_switch rootNoAliceEnv ["chromium"] "kiosk-user"
      "/home/kiosk-user" 1000).1 (by decide) (by decide) rfl (by decide),
   (c10_identity_switch rootNoAliceEnv ["chromium"] "alice" "" 0).2.2.2.2
      (by decide) (by decide) rfl (by decide)⟩
